/-
  Verification of the shortcut dispatch and task-lifecycle engine of
  CapsWriter-Offline (`util/client/shortcut`, the refactored
  `ShortcutManager` / `ShortcutTask` code).

  The Python source is shallowly embedded: pure helpers become Lean
  functions, the mutable manager/task state becomes explicit record
  passing, collaborator calls and worker-pool submissions become entries
  of an explicit action trace, and wall-clock time is modelled by `ℚ`
  (the code uses float seconds from `time.time()`).
-/
import Mathlib

namespace CapsWriter

/-! ## Key canonicalizer

`ShortcutManager._vk_to_name` (REFACTOR.md lines 677-721): a lookup
table for named keys, F-keys, letters and digits, then two redundant
range checks, and a fallback that renders unknown codes as `vk_<n>`. -/

/-- The `vk_map` dictionary of `_vk_to_name`: named keys, F1-F12,
letters A-Z (lower-cased) and digits 0-9. -/
def vk_map : List (Nat × String) :=
  [(0x14, "caps_lock"), (0x20, "space"), (0x09, "tab"), (0x0D, "enter"),
   (0x1B, "esc"), (0x2E, "delete"), (0x08, "backspace"),
   (0x70, "f1"), (0x71, "f2"), (0x72, "f3"), (0x73, "f4"),
   (0x74, "f5"), (0x75, "f6"), (0x76, "f7"), (0x77, "f8"),
   (0x78, "f9"), (0x79, "f10"), (0x7A, "f11"), (0x7B, "f12")]
  ++ ((List.range 26).map (fun i => (0x41 + i, String.mk [Char.ofNat (0x61 + i)])))
  ++ ((List.range 10).map (fun i => (0x30 + i, Nat.repr i)))

/-- `ShortcutManager._vk_to_name`: table lookup, then the digit and
letter range checks, then the `vk_<n>` fallback. -/
def vk_to_name (vk : Nat) : String :=
  match vk_map.lookup vk with
  | some s => s
  | none =>
    if 0x30 ≤ vk ∧ vk ≤ 0x39 then Nat.repr (vk - 0x30)
    else if 0x41 ≤ vk ∧ vk ≤ 0x5A then String.mk [Char.ofNat (vk + 0x20)]
    else "vk_" ++ Nat.repr vk

/-- A raw code `vk` is covered by the known key space of `_vk_to_name`
(the lookup table or one of the two range checks). -/
def vk_known (vk : Nat) : Prop :=
  (vk_map.lookup vk).isSome = true ∨ (0x30 ≤ vk ∧ vk ≤ 0x39) ∨ (0x41 ≤ vk ∧ vk ≤ 0x5A)

instance (vk : Nat) : Decidable (vk_known vk) := by
  unfold vk_known; infer_instance

/-- The `special_keys` dictionary of `ShortcutManager._name_to_key`
(lines 650-665): the key names that map to a `pynput` special key. -/
def special_key_names : List String :=
  ["caps_lock", "space", "tab", "enter", "esc", "delete", "backspace",
   "shift", "ctrl", "alt", "cmd",
   "f1", "f2", "f3", "f4", "f5", "f6", "f7", "f8", "f9", "f10", "f11", "f12"]

/-- `ShortcutManager._name_to_key`: special-key lookup, then
single-character keys, else `None`.  The returned platform key object is
identified by the canonical name it injects. -/
def name_to_key (key : String) : Option String :=
  if key ∈ special_key_names then some key
  else if key.length == 1 then some key
  else none

/-! ## Guard sets

`_emulating_keys` and `_restoring_keys` are Python `set[str]`; we model
them as lists with `add`/`discard`. -/

/-- Python `set.add`: insert if not already present. -/
def setAdd (k : String) (l : List String) : List String :=
  if k ∈ l then l else k :: l

/-- Python `set.discard`: remove every occurrence, no error if absent. -/
def setDiscard (k : String) (l : List String) : List String :=
  l.filter (fun x => x ≠ k)

theorem mem_setAdd (k : String) (l : List String) : k ∈ setAdd k l := by
  unfold setAdd; split
  · assumption
  · exact List.mem_cons_self k l

theorem not_mem_setDiscard (k : String) (l : List String) :
    k ∉ setDiscard k l := by
  unfold setDiscard
  intro h
  have := (List.mem_filter.mp h).2
  simp at this

/-! ## Data model

`Shortcut` (from `shortcut_config.py`, not in the tree: only the fields
the engine reads), `ShortcutTask` (REFACTOR.md lines 170-284) and the
manager state (lines 303-324). -/

/-- The binding configuration fields consumed by the engine:
`key`, `hold_mode`, `suppress`, `restore`. -/
structure Shortcut where
  key : String
  hold_mode : Bool
  suppress : Bool
  restore : Bool
deriving DecidableEq, Repr

/-- Modelled from the spec: `Shortcut.is_toggle_key` lives in
`util/client/shortcut/shortcut_config.py`, which is not in the source
tree (only its caller `ShortcutTask._restore_key` is).  The spec
describes the property as the key being a stateful toggle key, "e.g. an
LED-bearing lock key", i.e. one of the lock keys. -/
def Shortcut.is_toggle_key (s : Shortcut) : Bool :=
  s.key == "caps_lock" || s.key == "num_lock" || s.key == "scroll_lock"

/-- The mutable per-binding state of `ShortcutTask`: recording flag and
start time, the click-mode press/release latch, the current wait-signal
generation (each `task.event = Event()` allocates a fresh object,
numbered by `gen`), and the effective threshold. -/
structure KTask where
  shortcut : Shortcut
  threshold : ℚ
  is_recording : Bool
  recording_start_time : ℚ
  pressed : Bool
  released : Bool
  gen : Nat
deriving DecidableEq, Repr

/-- A fresh idle task as built by `ShortcutManager._init_tasks`. -/
def KTask.init (s : Shortcut) (threshold : ℚ) : KTask :=
  { shortcut := s, threshold := threshold, is_recording := false,
    recording_start_time := 0, pressed := false, released := true, gen := 0 }

/-- The manager state read and written by the event filter: the task
registry keyed by canonical name, and the two self-emission guard sets
`_emulating_keys` and `_restoring_keys`. -/
structure KMgr where
  tasks : List (String × KTask)
  emulating : List String
  restoring : List String
deriving DecidableEq, Repr

/-- Replace the registry entry for `key` (the Python code mutates the
`ShortcutTask` object held in `self.tasks[key]` in place). -/
def KMgr.updateTask (m : KMgr) (key : String) (tk : KTask) : KMgr :=
  { m with tasks := m.tasks.map (fun p => if p.1 = key then (p.1, tk) else p) }

/-! ## Collaborator calls and worker-pool submissions

The observable effects of one `win32_event_filter` invocation. -/

/-- Observable actions of the dispatcher: recorded collaborator calls
and jobs submitted to the worker pool. -/
inductive FAct where
  | launch (key : String) (t : ℚ)
  | cancel (key : String)
  | finish (key : String)
  | submitEmulate (key : String)
  | submitCountdown (key : String)
  | submitManage (key : String)
  | submitRestore (key : String)
deriving DecidableEq, Repr

/-- Whether each collaborator handoff inside `launch`/`cancel`/`finish`
raises.  The code wraps none of these calls in `try`/`except`. -/
structure CollabBehavior where
  launchRaises : Bool
  cancelRaises : Bool
  finishRaises : Bool
deriving DecidableEq, Repr

/-- All collaborator calls succeed. -/
def collabOK : CollabBehavior := ⟨false, false, false⟩

/-- `ShortcutTask.launch` (lines 213-238): records the start time and
sets `is_recording = True` before the collaborator handoff
(`run_coroutine_threadsafe` of the begin message); a raise there leaves
both already set. -/
def KTask.launch_model (tk : KTask) (now : ℚ) (cb : CollabBehavior) :
    KTask × List FAct × Bool :=
  let tk := { tk with recording_start_time := now, is_recording := true }
  (tk, [FAct.launch tk.shortcut.key now], cb.launchRaises)

/-- `ShortcutTask.cancel` (lines 240-250): clears `is_recording`, then
hands off to the collaborator (`state.stop_recording`). -/
def KTask.cancel_model (tk : KTask) (cb : CollabBehavior) :
    KTask × List FAct × Bool :=
  ({ tk with is_recording := false }, [FAct.cancel tk.shortcut.key], cb.cancelRaises)

/-- `ShortcutTask.finish` (lines 252-284): clears `is_recording`, hands
off the finish message (a raise there skips the rest), then runs
`_restore_key`: for a `restore` binding on a toggle key it calls
`ShortcutManager._schedule_restore`, which adds the key to
`_restoring_keys` and submits the restore job to the pool. -/
def KTask.finish_model (tk : KTask) (restoring : List String)
    (cb : CollabBehavior) : KTask × List String × List FAct × Bool :=
  let tk := { tk with is_recording := false }
  if cb.finishRaises then
    (tk, restoring, [FAct.finish tk.shortcut.key], true)
  else if tk.shortcut.restore && tk.shortcut.is_toggle_key then
    (tk, setAdd tk.shortcut.key restoring,
     [FAct.finish tk.shortcut.key, FAct.submitRestore tk.shortcut.key], false)
  else
    (tk, restoring, [FAct.finish tk.shortcut.key], false)

/-! ## The keyboard event filter

`ShortcutManager._create_keyboard_filter().win32_event_filter`
(REFACTOR.md lines 391-473), one raw event at a time. -/

/-- Windows keyboard message constants (lines 161-164). -/
def WM_KEYDOWN : Nat := 0x0100

/-- `WM_KEYUP` message constant. -/
def WM_KEYUP : Nat := 0x0101

/-- `WM_SYSKEYDOWN` message constant. -/
def WM_SYSKEYDOWN : Nat := 0x0104

/-- `WM_SYSKEYUP` message constant. -/
def WM_SYSKEYUP : Nat := 0x0105

/-- `msg in (WM_KEYDOWN, WM_KEYUP, WM_SYSKEYDOWN, WM_SYSKEYUP)`. -/
def isKeyMsg (msg : Nat) : Bool :=
  msg == WM_KEYDOWN || msg == WM_KEYUP || msg == WM_SYSKEYDOWN || msg == WM_SYSKEYUP

/-- `msg in (WM_KEYDOWN, WM_SYSKEYDOWN)`. -/
def isKeyDown (msg : Nat) : Bool :=
  msg == WM_KEYDOWN || msg == WM_SYSKEYDOWN

/-- `msg in (WM_KEYUP, WM_SYSKEYUP)`. -/
def isKeyUp (msg : Nat) : Bool :=
  msg == WM_KEYUP || msg == WM_SYSKEYUP

/-- Result of one `win32_event_filter` call: the manager state after the
call, whether an exception escaped the filter, whether
`suppress_event()` was called, and the recorded actions. -/
structure FilterOut where
  mgr : KMgr
  raised : Bool
  suppressed : Bool
  acts : List FAct
deriving DecidableEq, Repr

/-- `win32_event_filter` (lines 391-473).  In order: message-kind check;
`_emulating_keys` check (discard on key-up only, early return without
suppression); `_restoring_keys` check (same shape); task lookup; the
hold-mode / click-mode press and release branches; finally
`suppress_event()` when the binding requests suppression.  Collaborator
raises (no `try`/`except` anywhere on this path) abort the filter with
the state mutated so far. -/
def win32_event_filter (m : KMgr) (msg vk : Nat) (now : ℚ)
    (cb : CollabBehavior) : FilterOut :=
  if ¬ isKeyMsg msg then ⟨m, false, false, []⟩
  else
    let key := vk_to_name vk
    if key ∈ m.emulating then
      if isKeyUp msg then
        ⟨{ m with emulating := setDiscard key m.emulating }, false, false, []⟩
      else ⟨m, false, false, []⟩
    else if key ∈ m.restoring then
      if isKeyUp msg then
        ⟨{ m with restoring := setDiscard key m.restoring }, false, false, []⟩
      else ⟨m, false, false, []⟩
    else
      match m.tasks.lookup key with
      | none => ⟨m, false, false, []⟩
      | some tk =>
        let sc := tk.shortcut
        let out : KMgr × Bool × List FAct :=
          if isKeyDown msg then
            if sc.hold_mode then
              if ¬ tk.is_recording then
                let r := tk.launch_model now cb
                (m.updateTask key r.1, r.2.2, r.2.1)
              else (m, false, [])
            else
              if tk.released then
                let tk' := { tk with pressed := true, released := false,
                                     gen := tk.gen + 1 }
                (m.updateTask key tk', false,
                 [FAct.submitCountdown key, FAct.submitManage key])
              else (m, false, [])
          else
            if sc.hold_mode then
              if tk.is_recording then
                let duration := now - tk.recording_start_time
                if duration < tk.threshold then
                  let r := tk.cancel_model cb
                  if r.2.2 then (m.updateTask key r.1, true, r.2.1)
                  else if sc.suppress then
                    (m.updateTask key r.1, false, r.2.1 ++ [FAct.submitEmulate key])
                  else (m.updateTask key r.1, false, r.2.1)
                else
                  let r := tk.finish_model m.restoring cb
                  ({ m.updateTask key r.1 with restoring := r.2.1 },
                   r.2.2.2, r.2.2.1)
              else (m, false, [])
            else
              if tk.pressed then
                -- `task.event.set()` (wait-signal dynamics live in the
                -- click-mode simulation below)
                let tk' := { tk with pressed := false, released := true }
                (m.updateTask key tk', false, [])
              else (m, false, [])
        if out.2.1 then ⟨out.1, true, false, out.2.2⟩
        else ⟨out.1, false, sc.suppress, out.2.2⟩

/-- Count the `launch` actions in a trace. -/
def countLaunch (l : List FAct) : Nat :=
  l.countP (fun a => match a with | FAct.launch _ _ => true | _ => false)

/-- Count the `cancel` actions in a trace. -/
def countCancel (l : List FAct) : Nat :=
  l.countP (fun a => match a with | FAct.cancel _ => true | _ => false)

/-- Count the `finish` actions in a trace. -/
def countFinish (l : List FAct) : Nat :=
  l.countP (fun a => match a with | FAct.finish _ => true | _ => false)

/-- Count the replay-job submissions in a trace. -/
def countSubmitEmulate (l : List FAct) : Nat :=
  l.countP (fun a => match a with | FAct.submitEmulate _ => true | _ => false)

/-! ## Worker-pool jobs: replay and restore

`_async_emulate_key` (lines 592-610) and the `do_restore` closure of
`_schedule_restore` (lines 344-368). -/

/-- Primitive steps performed by a worker job. -/
inductive JAct where
  | sleep (d : ℚ)
  | mark (key : String)
  | press (key : String)
  | release (key : String)
  | warn (key : String)
deriving DecidableEq, Repr

/-- `ShortcutManager._async_emulate_key`: adds the key to
`_emulating_keys`, resolves it via `_name_to_key`, and if resolvable
injects one press and one release; otherwise logs a warning.  There is
no sleep anywhere in the body, and no removal from the guard set. -/
def async_emulate_key (emulating : List String) (key : String) :
    List String × List JAct :=
  let emulating' := setAdd key emulating
  match name_to_key key with
  | some k => (emulating', [JAct.mark key, JAct.press k, JAct.release k])
  | none => (emulating', [JAct.mark key, JAct.warn key])

/-- The steps of the `do_restore` closure (lines 355-366):
`time.sleep(0.01)`, then a caps-lock press+release when the key is
`caps_lock`, and nothing for any other key (`else: pass`). -/
def do_restore_acts (key : String) : List JAct :=
  JAct.sleep (1/100) ::
    (if key == "caps_lock" then
      [JAct.press "caps_lock", JAct.release "caps_lock"]
    else [])

/-- Running `do_restore` with a possibly-raising injection: the `try`
body stops at the raise, but the `finally` clause always discards the
key from `_restoring_keys`; the exception (there is no `except` clause)
then escapes the job. -/
def do_restore_run (restoring : List String) (key : String)
    (injectionRaises : Bool) : List String × List JAct × Bool :=
  let escaped := key == "caps_lock" && injectionRaises
  let acts :=
    if key == "caps_lock" then
      if injectionRaises then [JAct.sleep (1/100), JAct.press "caps_lock"]
      else [JAct.sleep (1/100), JAct.press "caps_lock", JAct.release "caps_lock"]
    else [JAct.sleep (1/100)]
  (setDiscard key restoring, acts, escaped)

/-! ## Click-mode timing semantics

A deterministic discrete-event simulation of one click-mode binding:
the filter's click branches (lines 438-444 and 462-467), the countdown
job `_count_down` (lines 477-480) and the session-management job
`_manage_task` (lines 482-494).  Each `task.event = Event()` allocates
a fresh wait signal, numbered by a generation counter; `gen ∈ setGens`
models "that `Event` object is set".  Worker jobs start immediately on
submission; every timed wakeup becomes a scheduled occurrence. -/

/-- Click-mode task state (the fields the click path touches). -/
structure CTask where
  is_recording : Bool
  pressed : Bool
  released : Bool
  gen : Nat
  threshold : ℚ
deriving DecidableEq, Repr

/-- Pending timed wakeups: a `_count_down` sleeper (wakes at `wake`,
spawned when the signal generation was `spawnGen`) and a `_manage_task`
thread blocked in `event.wait(timeout=threshold*0.8)` on signal
generation `gen`, timing out at `deadline`, having captured
`was_recording = wasRec` at spawn. -/
inductive CJob where
  | countdown (wake : ℚ) (spawnGen : Nat)
  | manage (deadline : ℚ) (gen : Nat) (wasRec : Bool)
deriving DecidableEq, Repr

/-- The time at which a pending job wakes by itself. -/
def CJob.time : CJob → ℚ
  | .countdown w _ => w
  | .manage d _ _ => d

/-- Trace entries: collaborator calls, plus an instrumentation record of
each `_count_down` firing (`task.event.set()` after the sleep), noting
the generation current at spawn and the generation actually resolved. -/
inductive CAct where
  | launch (t : ℚ)
  | cancel (t : ℚ)
  | finish (t : ℚ)
  | cdFired (t : ℚ) (spawnGen curGen : Nat)
deriving DecidableEq, Repr

/-- Full simulation state: task, the set signal generations, pending
jobs, remaining external events (time, `true` = press) in chronological
order, and the accumulated trace. -/
structure CState where
  task : CTask
  setGens : List Nat
  jobs : List CJob
  exts : List (ℚ × Bool)
  trace : List CAct
deriving DecidableEq, Repr

/-- Wake every `_manage_task` thread whose signal generation is now set
and whose timeout has not yet expired; its body (lines 489-491) calls
`finish()` when `task.is_recording and was_recording`. -/
def resolveStep (now : ℚ) :
    List CJob → CTask → List Nat → List CAct →
    List CJob × CTask × List CAct
  | [], task, _, trace => ([], task, trace)
  | j :: rest, task, setGens, trace =>
    match j with
    | CJob.manage d g w =>
      if g ∈ setGens ∧ now < d then
        let fired :=
          if task.is_recording && w then
            ({ task with is_recording := false }, trace ++ [CAct.finish now])
          else (task, trace)
        resolveStep now rest fired.1 setGens fired.2
      else
        let r := resolveStep now rest task setGens trace
        (j :: r.1, r.2.1, r.2.2)
    | _ =>
      let r := resolveStep now rest task setGens trace
      (j :: r.1, r.2.1, r.2.2)

/-- Apply `resolveStep` to a simulation state. -/
def resolveManages (now : ℚ) (s : CState) : CState :=
  let r := resolveStep now s.jobs s.task s.setGens s.trace
  { s with jobs := r.1, task := r.2.1, trace := r.2.2 }

/-- Click-mode press branch (lines 439-444): only acts when the task is
`released`; latches `pressed`, allocates a fresh wait signal, submits
`_count_down` and `_manage_task`.  The management job's prologue (lines
484-487) runs at spawn: it captures `was_recording` and calls `launch()`
when no session is open. -/
def applyPress (s : CState) (t : ℚ) (rest : List (ℚ × Bool)) : CState :=
  if s.task.released then
    let g := s.task.gen + 1
    let task := { s.task with pressed := true, released := false, gen := g }
    let wasRec := task.is_recording
    let launched :=
      if !wasRec then
        ({ task with is_recording := true }, s.trace ++ [CAct.launch t])
      else (task, s.trace)
    let jobs' := s.jobs ++
      [CJob.countdown (t + task.threshold) g,
       CJob.manage (t + task.threshold * (4/5)) g wasRec]
    { s with task := launched.1, exts := rest, trace := launched.2, jobs := jobs' }
  else { s with exts := rest }

/-- Click-mode release branch (lines 464-467): only acts when `pressed`;
latches `released` and sets the current wait signal, waking eligible
management jobs. -/
def applyRelease (s : CState) (t : ℚ) (rest : List (ℚ × Bool)) : CState :=
  if s.task.pressed then
    let task := { s.task with pressed := false, released := true }
    resolveManages t
      { s with task := task, exts := rest, setGens := task.gen :: s.setGens }
  else { s with exts := rest }

/-- A pending job wakes by itself.  `_count_down` (lines 477-480) sets
`task.event` as read *after* the sleep, i.e. the generation current at
wake time.  A `manage` job reaching its deadline runs its else-branch
(lines 492-494), calling `cancel()` when `was_recording` was false —
unless its signal was set exactly at the deadline, in which case the
wait returns true and the then-branch runs. -/
def applyJob (s : CState) (j : CJob) (rest : List CJob) : CState :=
  match j with
  | CJob.countdown w sg =>
    let trace' := s.trace ++ [CAct.cdFired w sg s.task.gen]
    resolveManages w
      { s with jobs := rest, setGens := s.task.gen :: s.setGens, trace := trace' }
  | CJob.manage d g w =>
    let fired :=
      if g ∈ s.setGens then
        if s.task.is_recording && w then
          ({ s.task with is_recording := false }, s.trace ++ [CAct.finish d])
        else (s.task, s.trace)
      else
        if !w then
          ({ s.task with is_recording := false }, s.trace ++ [CAct.cancel d])
        else (s.task, s.trace)
    { s with task := fired.1, trace := fired.2, jobs := rest }

/-- Pick the earliest pending job (first in list order on ties). -/
def pickMin : CJob → List CJob → CJob × List CJob
  | j, [] => (j, [])
  | j, k :: rest =>
    if k.time < j.time then
      let r := pickMin k rest
      (r.1, j :: r.2)
    else
      let r := pickMin j rest
      (r.1, k :: r.2)

/-- One simulation step: process the earliest occurrence among the next
external event and the pending job wakeups (jobs win ties). -/
def stepOnce (s : CState) : Option CState :=
  match s.exts, s.jobs with
  | [], [] => none
  | [], j :: js =>
    let r := pickMin j js
    some (applyJob s r.1 r.2)
  | (t, isP) :: es, [] =>
    some (if isP then applyPress s t es else applyRelease s t es)
  | (t, isP) :: es, j :: js =>
    let r := pickMin j js
    if r.1.time ≤ t then some (applyJob s r.1 r.2)
    else some (if isP then applyPress s t es else applyRelease s t es)

/-- Run the simulation for at most `fuel` occurrences. -/
def runSim : Nat → CState → CState
  | 0, s => s
  | fuel + 1, s =>
    match stepOnce s with
    | none => s
    | some s' => runSim fuel s'

/-- The collaborator calls of a trace (instrumentation entries dropped). -/
def callsOf (l : List CAct) : List CAct :=
  l.filter (fun a => match a with | CAct.cdFired _ _ _ => false | _ => true)

/-- Initial click-mode state: idle task with threshold `T`, external
events `exts` pending. -/
def clickInit (T : ℚ) (exts : List (ℚ × Bool)) : CState :=
  { task := { is_recording := false, pressed := false, released := true,
              gen := 0, threshold := T },
    setGens := [], jobs := [], exts := exts, trace := [] }

/-! ## Simulation helper lemmas and intermediate states -/

theorem runSim_step (n : Nat) (s s' : CState) (h : stepOnce s = some s') :
    runSim (n+1) s = runSim n s' := by
  simp [runSim, h]

theorem runSim_done (n : Nat) (s : CState) (h : stepOnce s = none) :
    runSim (n+1) s = s := by
  simp [runSim, h]

/-- Shorthand click-task builder for the intermediate states below. -/
def c3task (rec pr rel : Bool) (g : Nat) (T : ℚ) : CTask :=
  { is_recording := rec, pressed := pr, released := rel, gen := g, threshold := T }

/-- State after the first press of the double-click run. -/
def c3s1 (T t1p t1r t2p t2r : ℚ) : CState :=
  { task := c3task true true false 1 T, setGens := [],
    jobs := [CJob.countdown (t1p+T) 1, CJob.manage (t1p+T*(4/5)) 1 false],
    exts := [(t1r,false),(t2p,true),(t2r,false)], trace := [CAct.launch t1p] }

/-- State after the first release. -/
def c3s2 (T t1p t2p t2r : ℚ) : CState :=
  { task := c3task true false true 1 T, setGens := [1],
    jobs := [CJob.countdown (t1p+T) 1],
    exts := [(t2p,true),(t2r,false)], trace := [CAct.launch t1p] }

/-- State after the second press. -/
def c3s3 (T t1p t2p t2r : ℚ) : CState :=
  { task := c3task true true false 2 T, setGens := [1],
    jobs := [CJob.countdown (t1p+T) 1, CJob.countdown (t2p+T) 2,
             CJob.manage (t2p+T*(4/5)) 2 true],
    exts := [(t2r,false)], trace := [CAct.launch t1p] }

/-- State after the second release (session finished). -/
def c3s4 (T t1p t2p t2r : ℚ) : CState :=
  { task := c3task false false true 2 T, setGens := [2,1],
    jobs := [CJob.countdown (t1p+T) 1, CJob.countdown (t2p+T) 2],
    exts := [], trace := [CAct.launch t1p, CAct.finish t2r] }

/-- State after the first countdown wakes. -/
def c3s5 (T t1p t2p t2r : ℚ) : CState :=
  { task := c3task false false true 2 T, setGens := [2,2,1],
    jobs := [CJob.countdown (t2p+T) 2],
    exts := [], trace := [CAct.launch t1p, CAct.finish t2r, CAct.cdFired (t1p+T) 1 2] }

/-- Final state of the double-click run. -/
def c3s6 (T t1p t2p t2r : ℚ) : CState :=
  { task := c3task false false true 2 T, setGens := [2,2,2,1],
    jobs := [], exts := [],
    trace := [CAct.launch t1p, CAct.finish t2r, CAct.cdFired (t1p+T) 1 2,
              CAct.cdFired (t2p+T) 2 2] }

/-! ## Claim C3: click mode, two quick press-and-release pairs -/

/-- Claim C3: for a click-mode binding, two press-and-release pairs that
both complete within the threshold window (the whole gesture inside the
first press's threshold, each release inside its press's wait window)
produce exactly one `launch()` (at the first press) and exactly one
`finish()` (at the second release), and never two `launch()` calls
without an intervening `finish()`: the collaborator-call trace is
exactly `[launch t1p, finish t2r]`. -/
theorem click_mode_double_click_single_session (T t1p t1r t2p t2r : ℚ)
    (hT : 0 < T) (h1 : t1p < t1r) (h2 : t1r < t2p) (h3 : t2p < t2r)
    (hw1 : t1r < t1p + T * (4/5)) (hw2 : t2r < t2p + T * (4/5))
    (hcd : t2r < t1p + T) :
    callsOf (runSim 7 (clickInit T [(t1p,true),(t1r,false),(t2p,true),(t2r,false)])).trace
      = [CAct.launch t1p, CAct.finish t2r] := by
  have e1 : stepOnce (clickInit T [(t1p,true),(t1r,false),(t2p,true),(t2r,false)]) =
      some (c3s1 T t1p t1r t2p t2r) := by
    simp only [clickInit, stepOnce, applyPress, c3s1, c3task]
    norm_num
  have e2 : stepOnce (c3s1 T t1p t1r t2p t2r) = some (c3s2 T t1p t2p t2r) := by
    simp [c3s1, c3s2, c3task, stepOnce, pickMin, CJob.time, applyRelease,
      resolveManages, resolveStep]
    split_ifs <;> first | rfl | (exfalso; linarith)
  have e3 : stepOnce (c3s2 T t1p t2p t2r) = some (c3s3 T t1p t2p t2r) := by
    simp [c3s2, c3s3, c3task, stepOnce, pickMin, CJob.time, applyPress,
      resolveManages, resolveStep]
    intro hc
    exfalso; linarith
  have e4 : stepOnce (c3s3 T t1p t2p t2r) = some (c3s4 T t1p t2p t2r) := by
    simp [c3s3, c3s4, c3task, stepOnce, pickMin, CJob.time, applyRelease,
      resolveManages, resolveStep]
    split_ifs <;> first | rfl | (exfalso; linarith)
  have e5 : stepOnce (c3s4 T t1p t2p t2r) = some (c3s5 T t1p t2p t2r) := by
    simp [c3s4, c3s5, c3task, stepOnce, pickMin, CJob.time, applyJob,
      resolveManages, resolveStep]
    split_ifs <;> first | rfl | (exfalso; linarith)
  have e6 : stepOnce (c3s5 T t1p t2p t2r) = some (c3s6 T t1p t2p t2r) := by
    simp [c3s5, c3s6, c3task, stepOnce, pickMin, CJob.time, applyJob,
      resolveManages, resolveStep]
  have e7 : stepOnce (c3s6 T t1p t2p t2r) = none := by
    simp [c3s6, stepOnce]
  rw [runSim_step _ _ _ e1, runSim_step _ _ _ e2, runSim_step _ _ _ e3,
      runSim_step _ _ _ e4, runSim_step _ _ _ e5, runSim_step _ _ _ e6,
      runSim_done _ _ e7]
  simp [callsOf, c3s6]

/-- Witness for C3, at the spec's concrete scenario C: threshold 0.3s,
press/release at 0 and 0.05, press/release at 0.2 and 0.25. -/
theorem click_mode_double_click_single_session_witness :
    callsOf (runSim 7 (clickInit (3/10)
        [(0,true),(1/20,false),(1/5,true),(1/4,false)])).trace
      = [CAct.launch 0, CAct.finish (1/4)] :=
  click_mode_double_click_single_session (3/10) 0 (1/20) (1/5) (1/4)
    (by norm_num) (by norm_num) (by norm_num) (by norm_num)
    (by norm_num) (by norm_num) (by norm_num)

/-! ## Claim C4: which wait signal the countdown job resolves -/

/-- Counterexample to claim C4: with threshold 0.3, a press at 0, a
release at 0.1 and a second press at 0.2, the countdown job spawned by
the *first* press (signal generation 1) wakes at 0.3 and resolves the
wait signal allocated by the *second* press (generation 2 ≠ 1) —
`_count_down` reads `task.event` after its sleep, not at spawn time. -/
theorem countdown_cross_press_resolution :
    CAct.cdFired (3/10) 1 2 ∈
      (runSim 9 (clickInit (3/10) [(0,true),(1/10,false),(1/5,true)])).trace
    ∧ (1 : Nat) ≠ 2 := by
  constructor
  · norm_num [runSim, stepOnce, pickMin, applyJob, applyPress, applyRelease,
      resolveManages, resolveStep, clickInit, CJob.time]
  · norm_num

/-- Amended C4: the countdown job sleeps for the threshold and then
resolves whatever wait signal is current at wake time, so a countdown
spawned for an earlier press can resolve a later press's signal.  In the
scenario above this makes the management job of the second press call
`finish()` at t = 0.3 although no second release ever arrived: the full
trace is launch, stale-countdown firing on generation 2, finish, and the
second countdown firing. -/
theorem countdown_resolves_wake_time_signal :
    (runSim 9 (clickInit (3/10) [(0,true),(1/10,false),(1/5,true)])).trace
      = [CAct.launch 0, CAct.cdFired (3/10) 1 2, CAct.finish (3/10),
         CAct.cdFired (1/2) 2 2] := by
  norm_num [runSim, stepOnce, pickMin, applyJob, applyPress, applyRelease,
    resolveManages, resolveStep, clickInit, CJob.time]

/-! ## Registry helper -/

theorem lookup_update (l : List (String × KTask)) (k : String) (tk' tk0 : KTask)
    (h : List.lookup k l = some tk0) :
    List.lookup k (l.map (fun p => if p.1 = k then (p.1, tk') else p)) = some tk' := by
  induction l with
  | nil => simp at h
  | cons hd tl ih =>
    obtain ⟨k1, v1⟩ := hd
    by_cases hk : k1 = k
    · subst hk
      simp only [List.map_cons]
      simp [List.lookup]
    · have hne : (k == k1) = false := by
        simp [beq_iff_eq]
        exact fun he => hk he.symm
      simp only [List.map_cons]
      rw [if_neg hk]
      simp only [List.lookup, hne] at h ⊢
      exact ih h

/-! ## Claim C1: hold-mode press/release lifecycle -/

/-- Claim C1: for an enabled hold-mode binding, a press while the task
is idle emits exactly one `launch()` and sets `is_recording`; the
subsequent release with elapsed time `t1 - t0` emits exactly one
`cancel()` and no `finish()` below the threshold, and exactly one
`finish()` and no `cancel()` at or above it. -/
theorem hold_mode_lifecycle (m : KMgr) (vk : Nat) (tk : KTask) (t0 t1 : ℚ)
    (hlook : List.lookup (vk_to_name vk) m.tasks = some tk)
    (hem : vk_to_name vk ∉ m.emulating)
    (hre : vk_to_name vk ∉ m.restoring)
    (hhold : tk.shortcut.hold_mode = true)
    (hidle : tk.is_recording = false) :
    countLaunch (win32_event_filter m WM_KEYDOWN vk t0 collabOK).acts = 1 ∧
    (List.lookup (vk_to_name vk)
        (win32_event_filter m WM_KEYDOWN vk t0 collabOK).mgr.tasks).map
      KTask.is_recording = some true ∧
    (t1 - t0 < tk.threshold →
      countCancel (win32_event_filter
          (win32_event_filter m WM_KEYDOWN vk t0 collabOK).mgr
          WM_KEYUP vk t1 collabOK).acts = 1 ∧
      countFinish (win32_event_filter
          (win32_event_filter m WM_KEYDOWN vk t0 collabOK).mgr
          WM_KEYUP vk t1 collabOK).acts = 0) ∧
    (tk.threshold ≤ t1 - t0 →
      countFinish (win32_event_filter
          (win32_event_filter m WM_KEYDOWN vk t0 collabOK).mgr
          WM_KEYUP vk t1 collabOK).acts = 1 ∧
      countCancel (win32_event_filter
          (win32_event_filter m WM_KEYDOWN vk t0 collabOK).mgr
          WM_KEYUP vk t1 collabOK).acts = 0) := by
  have hp : win32_event_filter m WM_KEYDOWN vk t0 collabOK =
      ⟨m.updateTask (vk_to_name vk)
         { tk with recording_start_time := t0, is_recording := true },
       false, tk.shortcut.suppress, [FAct.launch tk.shortcut.key t0]⟩ := by
    simp only [win32_event_filter, isKeyMsg, isKeyDown, isKeyUp, WM_KEYDOWN,
      WM_KEYUP, WM_SYSKEYDOWN, WM_SYSKEYUP, KTask.launch_model, collabOK]
    norm_num
    rw [if_neg hem, if_neg hre, hlook]
    simp [hhold, hidle]
  have hlook1 : List.lookup (vk_to_name vk)
      (m.updateTask (vk_to_name vk)
        { tk with recording_start_time := t0, is_recording := true }).tasks =
      some { tk with recording_start_time := t0, is_recording := true } := by
    simp only [KMgr.updateTask]
    exact lookup_update m.tasks (vk_to_name vk) _ tk hlook
  have hemu : (m.updateTask (vk_to_name vk)
      { tk with recording_start_time := t0, is_recording := true }).emulating
      = m.emulating := rfl
  have hres : (m.updateTask (vk_to_name vk)
      { tk with recording_start_time := t0, is_recording := true }).restoring
      = m.restoring := rfl
  refine ⟨?_, ?_, ?_, ?_⟩
  · rw [hp]; simp [countLaunch]
  · rw [hp]; rw [hlook1]; simp
  · intro hd
    rw [hp]
    simp only [win32_event_filter, isKeyMsg, isKeyDown, isKeyUp, WM_KEYDOWN,
      WM_KEYUP, WM_SYSKEYDOWN, WM_SYSKEYUP, KTask.cancel_model, collabOK,
      hemu, hres, hlook1]
    norm_num [hem, hre, hhold, hd]
    by_cases hs : tk.shortcut.suppress = true <;>
      simp [hs, countCancel, countFinish]
  · intro hd
    rw [hp]
    simp only [win32_event_filter, isKeyMsg, isKeyDown, isKeyUp, WM_KEYDOWN,
      WM_KEYUP, WM_SYSKEYDOWN, WM_SYSKEYUP, KTask.finish_model, collabOK,
      hemu, hres, hlook1]
    have hlt : ¬ (t1 - t0 < tk.threshold) := not_lt.mpr hd
    norm_num [hem, hre, hhold, hlt]
    by_cases hrs : tk.shortcut.restore = true ∧ tk.shortcut.is_toggle_key = true <;>
      simp [hrs, countCancel, countFinish]

/-- Concrete fixture: an enabled hold-mode `f1` binding with
`suppress = true`, as in the spec's scenarios A and B. -/
def scF1 : Shortcut :=
  { key := "f1", hold_mode := true, suppress := true, restore := false }

/-- Concrete fixture: a manager holding only the idle `f1` task with
threshold 0.3s. -/
def mgrF1 : KMgr :=
  { tasks := [("f1", KTask.init scF1 (3/10))], emulating := [], restoring := [] }

/-- Witness for C1 at the `f1` fixture, press at 0, release at 0.5. -/
theorem hold_mode_lifecycle_witness :
    countLaunch (win32_event_filter mgrF1 WM_KEYDOWN 0x70 0 collabOK).acts = 1 ∧
    (List.lookup (vk_to_name 0x70)
        (win32_event_filter mgrF1 WM_KEYDOWN 0x70 0 collabOK).mgr.tasks).map
      KTask.is_recording = some true ∧
    ((1:ℚ)/2 - 0 < (KTask.init scF1 (3/10)).threshold →
      countCancel (win32_event_filter
          (win32_event_filter mgrF1 WM_KEYDOWN 0x70 0 collabOK).mgr
          WM_KEYUP 0x70 (1/2) collabOK).acts = 1 ∧
      countFinish (win32_event_filter
          (win32_event_filter mgrF1 WM_KEYDOWN 0x70 0 collabOK).mgr
          WM_KEYUP 0x70 (1/2) collabOK).acts = 0) ∧
    ((KTask.init scF1 (3/10)).threshold ≤ (1:ℚ)/2 - 0 →
      countFinish (win32_event_filter
          (win32_event_filter mgrF1 WM_KEYDOWN 0x70 0 collabOK).mgr
          WM_KEYUP 0x70 (1/2) collabOK).acts = 1 ∧
      countCancel (win32_event_filter
          (win32_event_filter mgrF1 WM_KEYDOWN 0x70 0 collabOK).mgr
          WM_KEYUP 0x70 (1/2) collabOK).acts = 0) :=
  hold_mode_lifecycle mgrF1 0x70 (KTask.init scF1 (3/10)) 0 (1/2)
    rfl (by simp [mgrF1]) (by simp [mgrF1]) rfl rfl

/-! ## Claim C2: self-emission guard press/release asymmetry -/

/-- Claim C2: for a marked identifier, the dispatcher passes a Press
through without clearing the mark and without suppressing, and removes
the mark only on the matching Release; hence mark followed by a
synthetic Press then Release leaves the guard with no entry for the
identifier. -/
theorem guard_mark_roundtrip (m : KMgr) (vk : Nat) (t t' : ℚ) (cb : CollabBehavior) :
    win32_event_filter
        { m with emulating := setAdd (vk_to_name vk) m.emulating }
        WM_KEYDOWN vk t cb
      = ⟨{ m with emulating := setAdd (vk_to_name vk) m.emulating },
         false, false, []⟩ ∧
    (win32_event_filter
        (win32_event_filter
          { m with emulating := setAdd (vk_to_name vk) m.emulating }
          WM_KEYDOWN vk t cb).mgr
        WM_KEYUP vk t' cb).suppressed = false ∧
    (win32_event_filter
        (win32_event_filter
          { m with emulating := setAdd (vk_to_name vk) m.emulating }
          WM_KEYDOWN vk t cb).mgr
        WM_KEYUP vk t' cb).acts = [] ∧
    vk_to_name vk ∉
      (win32_event_filter
        (win32_event_filter
          { m with emulating := setAdd (vk_to_name vk) m.emulating }
          WM_KEYDOWN vk t cb).mgr
        WM_KEYUP vk t' cb).mgr.emulating := by
  have hm : vk_to_name vk ∈ setAdd (vk_to_name vk) m.emulating :=
    mem_setAdd _ _
  have hp : win32_event_filter
      { m with emulating := setAdd (vk_to_name vk) m.emulating }
      WM_KEYDOWN vk t cb
      = ⟨{ m with emulating := setAdd (vk_to_name vk) m.emulating },
         false, false, []⟩ := by
    simp only [win32_event_filter, isKeyMsg, isKeyDown, isKeyUp, WM_KEYDOWN,
      WM_KEYUP, WM_SYSKEYDOWN, WM_SYSKEYUP]
    norm_num [hm]
  refine ⟨hp, ?_, ?_, ?_⟩ <;> rw [hp] <;>
    simp only [win32_event_filter, isKeyMsg, isKeyDown, isKeyUp, WM_KEYDOWN,
      WM_KEYUP, WM_SYSKEYDOWN, WM_SYSKEYUP] <;>
    norm_num [hm] <;>
    exact not_mem_setDiscard _ _

/-! ## Claim C9: totality of the raw-code mapping -/

/-- Counterexample to claim C9: the unknown raw code 0 maps to
`"vk_0"`, not to the claimed `"code_0"` — the fallback of `_vk_to_name`
uses the `vk_` spelling. -/
theorem vk_fallback_spelling_counterexample :
    vk_to_name 0 = "vk_0" ∧ vk_to_name 0 ≠ "code_0" := by
  constructor <;> decide

/-- Amended C9: the mapping is total (a Lean function into `String`)
and every raw code outside the known key space maps to the synthetic
identifier `"vk_<n>"`. -/
theorem vk_to_name_total_fallback (vk : Nat) (h : ¬ vk_known vk) :
    vk_to_name vk = "vk_" ++ Nat.repr vk := by
  unfold vk_known at h
  push_neg at h
  obtain ⟨h1, h2, h3⟩ := h
  unfold vk_to_name
  cases hl : vk_map.lookup vk with
  | none =>
    simp only []
    rw [if_neg, if_neg]
    · intro hc; exact absurd hc.2 (not_le.mpr (h3 hc.1))
    · intro hc; exact absurd hc.2 (not_le.mpr (h2 hc.1))
  | some s => rw [hl] at h1; simp at h1

/-- Witness for the amended C9, at the unknown raw code 255. -/
theorem vk_to_name_total_fallback_witness :
    vk_to_name 255 = "vk_" ++ Nat.repr 255 :=
  vk_to_name_total_fallback 255 (by decide)

/-! ## Claim C10: the restore job unmarks itself unconditionally -/

/-- Claim C10: whether or not the synthetic injection raises, after the
restore job finishes the key is not in `_restoring_keys` — the
`finally` clause discards it unconditionally. -/
theorem restore_job_always_unmarks (restoring : List String) (key : String)
    (injectionRaises : Bool) :
    key ∉ (do_restore_run restoring key injectionRaises).1 := by
  unfold do_restore_run
  exact not_mem_setDiscard key restoring

/-! ## Helpers for the replay and restore jobs -/

theorem name_to_key_self (key k : String) (h : name_to_key key = some k) : k = key := by
  unfold name_to_key at h
  split_ifs at h <;> simp_all

theorem async_emulate_fst (em : List String) (key : String) :
    (async_emulate_key em key).1 = setAdd key em := by
  unfold async_emulate_key
  cases name_to_key key <;> rfl

/-- Dispatching a press then a release for a marked identifier: press
passes through untouched, release clears the mark; neither is
suppressed or reaches the task logic. -/
theorem guard_marked_dispatch (m : KMgr) (vk : Nat) (t t' : ℚ) (cb : CollabBehavior)
    (hm : vk_to_name vk ∈ m.emulating) :
    win32_event_filter m WM_KEYDOWN vk t cb = ⟨m, false, false, []⟩ ∧
    (win32_event_filter
        (win32_event_filter m WM_KEYDOWN vk t cb).mgr WM_KEYUP vk t' cb).suppressed
      = false ∧
    (win32_event_filter
        (win32_event_filter m WM_KEYDOWN vk t cb).mgr WM_KEYUP vk t' cb).acts = [] ∧
    vk_to_name vk ∉
      (win32_event_filter
        (win32_event_filter m WM_KEYDOWN vk t cb).mgr WM_KEYUP vk t' cb).mgr.emulating := by
  have hp : win32_event_filter m WM_KEYDOWN vk t cb = ⟨m, false, false, []⟩ := by
    simp only [win32_event_filter, isKeyMsg, isKeyDown, isKeyUp, WM_KEYDOWN,
      WM_KEYUP, WM_SYSKEYDOWN, WM_SYSKEYUP]
    norm_num [hm]
  refine ⟨hp, ?_, ?_, ?_⟩ <;> rw [hp] <;>
    simp only [win32_event_filter, isKeyMsg, isKeyDown, isKeyUp, WM_KEYDOWN,
      WM_KEYUP, WM_SYSKEYDOWN, WM_SYSKEYUP] <;>
    norm_num [hm] <;>
    exact not_mem_setDiscard _ _

/-! ## Claim C5: the replay job -/

/-- Counterexample to claim C5: the replay job for `f1` performs the
guard marking as its very first step and never sleeps — it does not
"first wait a fixed settle delay, then mark". -/
theorem replay_settle_delay_counterexample :
    (async_emulate_key [] "f1").2
      = [JAct.mark "f1", JAct.press "f1", JAct.release "f1"] ∧
    ((async_emulate_key [] "f1").2.all
      (fun a => match a with | JAct.sleep _ => false | _ => true)) = true := by
  constructor <;> rfl

/-- Amended C5: a short suppressed hold-mode release submits exactly one
replay job; the job immediately marks the identifier in the guard and
then synthesizes exactly one Press followed by one Release for a
mappable identifier, with no settle delay. -/
theorem replay_job_behavior (m : KMgr) (vk : Nat) (tk : KTask) (t1 : ℚ)
    (hlook : List.lookup (vk_to_name vk) m.tasks = some tk)
    (hem : vk_to_name vk ∉ m.emulating)
    (hre : vk_to_name vk ∉ m.restoring)
    (hhold : tk.shortcut.hold_mode = true)
    (hrec : tk.is_recording = true)
    (hshort : t1 - tk.recording_start_time < tk.threshold)
    (hsup : tk.shortcut.suppress = true)
    (hmap : (name_to_key (vk_to_name vk)).isSome = true) :
    countSubmitEmulate (win32_event_filter m WM_KEYUP vk t1 collabOK).acts = 1 ∧
    (async_emulate_key m.emulating (vk_to_name vk)).2
      = [JAct.mark (vk_to_name vk), JAct.press (vk_to_name vk),
         JAct.release (vk_to_name vk)] := by
  constructor
  · simp only [win32_event_filter, isKeyMsg, isKeyDown, isKeyUp, WM_KEYDOWN,
      WM_KEYUP, WM_SYSKEYDOWN, WM_SYSKEYUP, KTask.cancel_model, collabOK]
    norm_num [hem, hre, hlook, hhold, hrec, hshort, hsup, countSubmitEmulate]
  · cases hk : name_to_key (vk_to_name vk) with
    | none => rw [hk] at hmap; simp at hmap
    | some k =>
      have hkk := name_to_key_self _ _ hk
      subst hkk
      simp [async_emulate_key, hk]

/-- Concrete fixture: the `f1` task while a recording started at 0 is
open. -/
def tkF1rec : KTask :=
  { KTask.init scF1 (3/10) with is_recording := true, recording_start_time := 0 }

/-- Concrete fixture: manager holding the recording `f1` task. -/
def mgrF1rec : KMgr :=
  { tasks := [("f1", tkF1rec)], emulating := [], restoring := [] }

/-- Witness for the amended C5: the spec's scenario B (press at 0,
release at 0.1, threshold 0.3, suppress on). -/
theorem replay_job_behavior_witness :
    countSubmitEmulate (win32_event_filter mgrF1rec WM_KEYUP 0x70 (1/10) collabOK).acts = 1 ∧
    (async_emulate_key mgrF1rec.emulating (vk_to_name 0x70)).2
      = [JAct.mark (vk_to_name 0x70), JAct.press (vk_to_name 0x70),
         JAct.release (vk_to_name 0x70)] :=
  replay_job_behavior mgrF1rec 0x70 tkF1rec (1/10)
    rfl (by simp [mgrF1rec]) (by simp [mgrF1rec]) rfl rfl
    (by norm_num [tkF1rec, KTask.init]) rfl (by decide)

/-! ## Claim C6: guard round-trip invariant -/

/-- Counterexample to claim C6: a replay job for the unmappable
identifier `"xx"` completes having injected no event at all, yet leaves
`"xx"` in the self-emission guard — nothing ever removes it. -/
theorem replay_unmappable_counterexample :
    "xx" ∈ (async_emulate_key [] "xx").1 ∧
    (async_emulate_key [] "xx").2 = [JAct.mark "xx", JAct.warn "xx"] := by
  constructor
  · rw [async_emulate_fst]
    exact mem_setAdd _ _
  · rfl

/-- Amended C6: when the replay job for a mappable identifier injects
its Press and Release and both are dispatched, the guard no longer
holds the identifier afterwards. -/
theorem replay_roundtrip_clears_guard (m : KMgr) (vk : Nat) (t t' : ℚ)
    (cb : CollabBehavior)
    (hmap : (name_to_key (vk_to_name vk)).isSome = true) :
    (async_emulate_key m.emulating (vk_to_name vk)).2
      = [JAct.mark (vk_to_name vk), JAct.press (vk_to_name vk),
         JAct.release (vk_to_name vk)] ∧
    vk_to_name vk ∉
      (win32_event_filter
        (win32_event_filter
          { m with emulating := (async_emulate_key m.emulating (vk_to_name vk)).1 }
          WM_KEYDOWN vk t cb).mgr
        WM_KEYUP vk t' cb).mgr.emulating := by
  constructor
  · cases hk : name_to_key (vk_to_name vk) with
    | none => rw [hk] at hmap; simp at hmap
    | some k =>
      have hkk := name_to_key_self _ _ hk
      subst hkk
      simp [async_emulate_key, hk]
  · have hm : vk_to_name vk ∈
        ({ m with emulating := (async_emulate_key m.emulating (vk_to_name vk)).1 } : KMgr).emulating := by
      rw [async_emulate_fst]
      exact mem_setAdd _ _
    exact (guard_marked_dispatch _ vk t t' cb hm).2.2.2

/-- Witness for the amended C6: round-trip of a synthetic `f1` pair. -/
theorem replay_roundtrip_clears_guard_witness :
    (async_emulate_key mgrF1rec.emulating (vk_to_name 0x70)).2
      = [JAct.mark (vk_to_name 0x70), JAct.press (vk_to_name 0x70),
         JAct.release (vk_to_name 0x70)] ∧
    vk_to_name 0x70 ∉
      (win32_event_filter
        (win32_event_filter
          { mgrF1rec with emulating := (async_emulate_key mgrF1rec.emulating (vk_to_name 0x70)).1 }
          WM_KEYDOWN 0x70 0 collabOK).mgr
        WM_KEYUP 0x70 (1/100) collabOK).mgr.emulating :=
  replay_roundtrip_clears_guard mgrF1rec 0x70 0 (1/100) collabOK (by decide)

/-! ## Claim C7: collaborator exceptions -/

/-- Counterexample to claim C7: with a raising `launch()` handoff, the
press on the idle `f1` task lets the exception escape the filter
(`raised = true`, nothing is caught at the call site) and leaves
`is_recording = true` instead of forcing the task back to idle. -/
theorem collab_exception_counterexample :
    (win32_event_filter mgrF1 WM_KEYDOWN 0x70 0 ⟨true, false, false⟩).raised = true ∧
    (win32_event_filter mgrF1 WM_KEYDOWN 0x70 0 ⟨true, false, false⟩).suppressed = false ∧
    (List.lookup "f1"
        (win32_event_filter mgrF1 WM_KEYDOWN 0x70 0 ⟨true, false, false⟩).mgr.tasks).map
      KTask.is_recording = some true := by
  refine ⟨rfl, rfl, rfl⟩

/-- Amended C7: there is no `try`/`except` around the collaborator
calls: an exception raised inside `launch()` propagates out of
`win32_event_filter` (the event is then not even suppressed) and the
task is left with `is_recording = true` rather than a consistent idle
state. -/
theorem collab_exception_escapes (m : KMgr) (vk : Nat) (tk : KTask) (t0 : ℚ)
    (hlook : List.lookup (vk_to_name vk) m.tasks = some tk)
    (hem : vk_to_name vk ∉ m.emulating)
    (hre : vk_to_name vk ∉ m.restoring)
    (hhold : tk.shortcut.hold_mode = true)
    (hidle : tk.is_recording = false) :
    (win32_event_filter m WM_KEYDOWN vk t0 ⟨true, false, false⟩).raised = true ∧
    (win32_event_filter m WM_KEYDOWN vk t0 ⟨true, false, false⟩).suppressed = false ∧
    (List.lookup (vk_to_name vk)
        (win32_event_filter m WM_KEYDOWN vk t0 ⟨true, false, false⟩).mgr.tasks).map
      KTask.is_recording = some true := by
  have hp : win32_event_filter m WM_KEYDOWN vk t0 ⟨true, false, false⟩ =
      ⟨m.updateTask (vk_to_name vk)
         { tk with recording_start_time := t0, is_recording := true },
       true, false, [FAct.launch tk.shortcut.key t0]⟩ := by
    simp only [win32_event_filter, isKeyMsg, isKeyDown, isKeyUp, WM_KEYDOWN,
      WM_KEYUP, WM_SYSKEYDOWN, WM_SYSKEYUP, KTask.launch_model]
    norm_num
    rw [if_neg hem, if_neg hre, hlook]
    simp [hhold, hidle]
  have hlook1 : List.lookup (vk_to_name vk)
      (m.updateTask (vk_to_name vk)
        { tk with recording_start_time := t0, is_recording := true }).tasks =
      some { tk with recording_start_time := t0, is_recording := true } := by
    simp only [KMgr.updateTask]
    exact lookup_update m.tasks (vk_to_name vk) _ tk hlook
  rw [hp]
  exact ⟨rfl, rfl, by rw [hlook1]; rfl⟩

/-- Witness for the amended C7, at the `f1` fixture. -/
theorem collab_exception_escapes_witness :
    (win32_event_filter mgrF1 WM_KEYDOWN 0x70 (1/4) ⟨true, false, false⟩).raised = true ∧
    (win32_event_filter mgrF1 WM_KEYDOWN 0x70 (1/4) ⟨true, false, false⟩).suppressed = false ∧
    (List.lookup (vk_to_name 0x70)
        (win32_event_filter mgrF1 WM_KEYDOWN 0x70 (1/4) ⟨true, false, false⟩).mgr.tasks).map
      KTask.is_recording = some true :=
  collab_exception_escapes mgrF1 0x70 (KTask.init scF1 (3/10)) (1/4)
    rfl (by simp [mgrF1]) (by simp [mgrF1]) rfl rfl

/-! ## Claim C8: restore on finish -/

/-- Concrete fixture: a `caps_lock` hold-mode binding with restore. -/
def scCaps : Shortcut :=
  { key := "caps_lock", hold_mode := true, suppress := true, restore := true }

/-- Concrete fixture: the recording `caps_lock` task, started at 0. -/
def tkCapsRec : KTask :=
  { KTask.init scCaps (3/10) with is_recording := true, recording_start_time := 0 }

/-- Concrete fixture: manager holding the recording `caps_lock` task. -/
def mgrCapsRec : KMgr :=
  { tasks := [("caps_lock", tkCapsRec)], emulating := [], restoring := [] }

/-- Counterexample to claim C8: the restore worker job performs no
marking at all (its steps are sleep, press, release), and the
identifier is already in the restore guard the moment the dispatching
release returns — `_schedule_restore` marks synchronously at schedule
time, before the job runs. -/
theorem restore_mark_timing_counterexample :
    ((do_restore_acts "caps_lock").all
      (fun a => match a with | JAct.mark _ => false | _ => true)) = true ∧
    "caps_lock" ∈
      (win32_event_filter mgrCapsRec WM_KEYUP 0x14 (1/2) collabOK).mgr.restoring := by
  constructor
  · rfl
  · have hv : vk_to_name 0x14 = "caps_lock" := by decide
    simp only [win32_event_filter, isKeyMsg, isKeyDown, isKeyUp, WM_KEYDOWN,
      WM_KEYUP, WM_SYSKEYDOWN, WM_SYSKEYUP, KTask.finish_model, collabOK, hv]
    norm_num [mgrCapsRec, tkCapsRec, KTask.init, scCaps, List.lookup,
      Shortcut.is_toggle_key, setAdd]

/-- Amended C8: a release at or past the threshold on a hold-mode
binding with restore on a toggle key calls `finish()` and enqueues the
restore job, marking the identifier in the restore guard at schedule
time; the job, after a 10ms settle delay, synthesizes a single
corrective Press+Release when the key is `caps_lock`, and injects
nothing for any other key. -/
theorem restore_schedule_behavior (m : KMgr) (vk : Nat) (tk : KTask) (t1 : ℚ)
    (hlook : List.lookup (vk_to_name vk) m.tasks = some tk)
    (hem : vk_to_name vk ∉ m.emulating)
    (hre : vk_to_name vk ∉ m.restoring)
    (hhold : tk.shortcut.hold_mode = true)
    (hrec : tk.is_recording = true)
    (hlong : tk.threshold ≤ t1 - tk.recording_start_time)
    (hres : tk.shortcut.restore = true)
    (htog : tk.shortcut.is_toggle_key = true) :
    (win32_event_filter m WM_KEYUP vk t1 collabOK).acts
      = [FAct.finish tk.shortcut.key, FAct.submitRestore tk.shortcut.key] ∧
    tk.shortcut.key ∈ (win32_event_filter m WM_KEYUP vk t1 collabOK).mgr.restoring ∧
    do_restore_acts "caps_lock"
      = [JAct.sleep (1/100), JAct.press "caps_lock", JAct.release "caps_lock"] ∧
    do_restore_acts "num_lock" = [JAct.sleep (1/100)] := by
  have hlt : ¬ (t1 - tk.recording_start_time < tk.threshold) := not_lt.mpr hlong
  have hp : win32_event_filter m WM_KEYUP vk t1 collabOK =
      ⟨{ m.updateTask (vk_to_name vk)
           { tk with is_recording := false } with
         restoring := setAdd tk.shortcut.key m.restoring },
       false, tk.shortcut.suppress,
       [FAct.finish tk.shortcut.key, FAct.submitRestore tk.shortcut.key]⟩ := by
    simp only [win32_event_filter, isKeyMsg, isKeyDown, isKeyUp, WM_KEYDOWN,
      WM_KEYUP, WM_SYSKEYDOWN, WM_SYSKEYUP, KTask.finish_model, collabOK]
    norm_num [hem, hre, hlook, hhold, hrec, hlt, hres, htog]
  rw [hp]
  exact ⟨rfl, mem_setAdd _ _, rfl, rfl⟩

/-- Witness for the amended C8: `caps_lock` released at 0.5 with
threshold 0.3. -/
theorem restore_schedule_behavior_witness :
    (win32_event_filter mgrCapsRec WM_KEYUP 0x14 (1/2) collabOK).acts
      = [FAct.finish tkCapsRec.shortcut.key, FAct.submitRestore tkCapsRec.shortcut.key] ∧
    tkCapsRec.shortcut.key ∈
      (win32_event_filter mgrCapsRec WM_KEYUP 0x14 (1/2) collabOK).mgr.restoring ∧
    do_restore_acts "caps_lock"
      = [JAct.sleep (1/100), JAct.press "caps_lock", JAct.release "caps_lock"] ∧
    do_restore_acts "num_lock" = [JAct.sleep (1/100)] :=
  restore_schedule_behavior mgrCapsRec 0x14 tkCapsRec (1/2)
    rfl (by simp [mgrCapsRec]) (by simp [mgrCapsRec]) rfl rfl
    (by norm_num [tkCapsRec, KTask.init]) rfl (by decide)

end CapsWriter
